import Mathlib

/-!
Shallow embedding of the `uploadbig` chunked-upload client
(`client.go`, `utils.go`) and proofs about its specification.

Modelling conventions:
* Go `int`/`int64` values are modelled as `Int`; Go `uint64` values as `Nat`.
  Where the source performs `uint64` arithmetic that can wrap, the wrap is
  modelled explicitly with `% 2^64`.
* `math.Ceil`/`math.Min` in the source are applied to `float64` images of
  integers; they are modelled as exact integer ceiling/min (exact for all
  magnitudes below `2^53`, which covers every value the claims quantify over).
* Fallible Go code is modelled with explicit result types; a Go runtime
  panic (index out of range) is a distinguished result constructor.
* The HTTP transport, the byte source and the logger are external
  collaborators; they are modelled as oracles (`Env`) supplying, per chunk
  and per attempt, the outcome the real collaborator would produce.
-/

namespace Uploadbig

/-- Two to the sixty-fourth, the modulus of Go `uint64` arithmetic. -/
def U64MOD : Nat := 2 ^ 64

/-- Conversion of a Go signed integer to `uint64` (two's-complement wrap). -/
def u64 (x : Int) : Nat := (x % (U64MOD : Int)).toNat

/-- Embedding of `generateContentRange` (utils.go:22-36).

```go
if index == 0 {
    contentRange = "bytes 0-" + fmt.Sprintf("%v", partSize) + "/" + fmt.Sprintf("%v", totalSize)
} else {
    from := uint64(fileChunk) * index
    to := uint64(fileChunk) * (index + 1)
    if to > uint64(totalSize) {
        to = uint64(totalSize) - 1
    }
    contentRange = "bytes " + ... from ... + "-" + ... to ... + "/" + ... totalSize ...
}
```
`index` is `uint64` (modelled as `Nat`, callers stay below `2^64`);
`fileChunk`, `partSize` are `int`; `totalSize` is `int64`.  The `uint64`
subtraction `uint64(totalSize) - 1` wraps, which is modelled with
`(+ (U64MOD - 1)) % U64MOD`. -/
def generateContentRange (index : Nat) (fileChunk : Int) (partSize : Int)
    (totalSize : Int) : String :=
  if index = 0 then
    "bytes 0-" ++ toString partSize ++ "/" ++ toString totalSize
  else
    let fromVal : Nat := (u64 fileChunk * index) % U64MOD
    let toRaw : Nat := (u64 fileChunk * (index + 1)) % U64MOD
    let toVal : Nat :=
      if toRaw > u64 totalSize then (u64 totalSize + (U64MOD - 1)) % U64MOD
      else toRaw
    "bytes " ++ toString fromVal ++ "-" ++ toString toVal ++ "/" ++ toString totalSize

/-- Embedding of the `UploadStatus` struct (client.go:40-47). -/
structure UploadStatus where
  Size : Int
  SizeTransferred : Int
  Parts : Nat
  PartsTransferred : Nat
  IsDone : Bool
  TransferredException : Bool
deriving Repr, DecidableEq

/-- Outcome of `parseBody` / `calculateTransferredSize`: either a value, a
`strconv.ParseInt` error (non-nil `error` return), or a Go runtime panic
(index out of range). -/
inductive ParseResult where
  | ok (n : Int)
  | parseErr
  | indexPanic
deriving Repr, DecidableEq

/-- Character-list worker for Go `strings.Split` with a non-empty
separator: splits around each non-overlapping occurrence of `sep`,
scanning left to right.  `fuel` bounds the recursion (any fuel above the
input length is enough) so the function is structurally recursive and
kernel-reducible. -/
def splitFuel (sep : List Char) : Nat → List Char → List (List Char)
  | 0, cs => [cs]
  | _ + 1, [] => [[]]
  | fuel + 1, c :: rest =>
    if sep.isPrefixOf (c :: rest) then
      [] :: splitFuel sep fuel ((c :: rest).drop sep.length)
    else
      match splitFuel sep fuel rest with
      | [] => [[c]]
      | g :: gs => (c :: g) :: gs

/-- Go `strings.Split(s, sep)` for non-empty `sep` (the only way the
source calls it): the list of substrings of `s` between consecutive
occurrences of `sep`.  Never returns an empty list. -/
def goSplit (s sep : String) : List String :=
  (splitFuel sep.data (s.data.length + 1) s.data).map String.mk

/-- Decimal value of a digit string (most significant digit first). -/
def digitsToNat (cs : List Char) : Nat :=
  cs.foldl (fun n c => n * 10 + (c.toNat - 48)) 0

/-- Go `strconv.ParseInt(s, 10, 64)` as an option-valued function: `some n` on a
well-formed optionally-signed decimal literal that fits in `int64`,
`none` (a non-nil error) otherwise. -/
def goParseInt64 (s : String) : Option Int :=
  let core : List Char → Int → Option Int := fun ds sign =>
    if ds = [] then none
    else if ds.all Char.isDigit then
      let n : Int := sign * (digitsToNat ds : Int)
      if -(2 ^ 63) ≤ n ∧ n < 2 ^ 63 then some n else none
    else none
  let cs := s.data
  if cs.head? = some '-' then core cs.tail (-1)
  else if cs.head? = some '+' then core cs.tail 1
  else core cs 1

/-- Embedding of `parseBody` (client.go:175-185).

```go
fromTo := strings.Split(body, "/")[0]
splitted := strings.Split(fromTo, "-")
partTo, err := strconv.ParseInt(splitted[1], 10, 64)
if err != nil { return 0, err }
return partTo, nil
```
`strings.Split` never returns an empty slice, so `[0]` is safe; the
unguarded `splitted[1]` panics (index out of range) when `fromTo`
contains no `"-"`. -/
def parseBody (body : String) : ParseResult :=
  let fromTo := (goSplit body "/").headD ""
  let splitted := goSplit fromTo "-"
  match splitted[1]? with
  | none => .indexPanic
  | some s =>
    match goParseInt64 s with
    | none => .parseErr
    | some n => .ok n

/-- Embedding of `calculateTransferredSize` (client.go:162-173).

```go
if body != "" { return parseBody(body) }
result := int64(partSize)
if (result + status.SizeTransferred) > status.Size {
    result = status.Size - status.SizeTransferred
}
return result, nil
```
-/
def calculateTransferredSize (body : String) (partSize : Int)
    (status : UploadStatus) : ParseResult :=
  if body ≠ "" then parseBody body
  else
    let result : Int :=
      if partSize + status.SizeTransferred > status.Size then
        status.Size - status.SizeTransferred
      else partSize
    .ok result

/-- Result of one transport attempt, as `httpRequest` returns it to the
retry loop in `uploadChunk`: `(isSuccess, responseBody, err)`, where `err`
records whether the returned `error` was non-nil. -/
structure AttemptResult where
  success : Bool
  body : String
  err : Bool
deriving Repr, DecidableEq

/-- The external collaborators of one upload run: whether the `io.ReadFull`
of chunk `i` succeeds, and the transport outcome of attempt `j` (0-based)
for chunk `i`. -/
structure Env where
  readOk : Nat → Bool
  attempt : Nat → Nat → AttemptResult

/-- The combined success test of one retry iteration (client.go:226-231):
the attempt counts as successful iff `isSuccess` is true AND the returned
error is nil (`if err != nil { isSuccess = false }`). -/
def attemptOk (a : AttemptResult) : Bool := a.success && !a.err

/-- The retry loop of `uploadChunk` (client.go:221-235), unrolled on fuel.

```go
var isSuccess = false
var responseBody = ""
var errorCount = 0
for !isSuccess && errorCount < 3 {
    isSuccess, responseBody, err = httpRequest(...)
    if err != nil { isSuccess = false }
    if !isSuccess { errorCount++ }
}
```
`n` counts the transport attempts made so far and indexes the oracle.
Returns `(isSuccess, responseBody, attempts made)`.  Fuel 4 is enough:
each iteration either succeeds (loop exits) or increments `errorCount`,
which is bounded by 3. -/
def retryGo (att : Nat → AttemptResult) :
    Nat → Nat → Bool → String → Nat → Bool × String × Nat
  | 0, n, isSuccess, body, _ => (isSuccess, body, n)
  | fuel + 1, n, isSuccess, body, errorCount =>
    if isSuccess = false ∧ errorCount < 3 then
      let a := att n
      retryGo att fuel (n + 1) (attemptOk a) a.body
        (if attemptOk a then errorCount else errorCount + 1)
    else (isSuccess, body, n)

/-- The whole retry loop with its Go initial state. -/
def retry (att : Nat → AttemptResult) : Bool × String × Nat :=
  retryGo att 4 0 false "" 0

/-- Embedding of `uploadDone` (client.go:187-195): sets `IsDone` and
records whether the terminal state was reached by exception. -/
def uploadDone (st : UploadStatus) (isException : Bool) : UploadStatus :=
  { st with IsDone := true, TransferredException := isException }

/-- The part-size computation of `uploadChunk` (client.go:205):
`int(math.Ceil(math.Min(float64(chunkSize), float64(Size - int64(i*uint64(chunkSize))))))`.
Both operands are integer-valued, so ceiling is the identity and the whole
expression is the integer minimum (exact below `2^53`; the `uint64`
product `i*chunkSize` does not wrap for the in-range values the claims
quantify over). -/
def computePartSize (chunkSize : Int) (size : Int) (i : Nat) : Int :=
  min chunkSize (size - (i : Int) * chunkSize)

/-- Embedding of `uploadChunk` (client.go:197-249), also returning the
number of transport attempts the call made.  `none` models a Go runtime
panic propagating out of `parseBody`. -/
def uploadChunk (env : Env) (chunkSize : Int) (i : Nat) (st : UploadStatus) :
    Option (UploadStatus × Nat) :=
  if i = st.Parts then some (uploadDone st false, 0)
  else if st.TransferredException then some (st, 0)
  else
    let partSize := computePartSize chunkSize st.Size i
    if partSize ≤ 0 then some (st, 0)
    else if env.readOk i = false then some (uploadDone st true, 0)
    else
      let r := retry (env.attempt i)
      let isSuccess := r.1
      let responseBody := r.2.1
      let attempts := r.2.2
      if isSuccess then
        match calculateTransferredSize responseBody partSize st with
        | .ok n =>
          some ({ st with SizeTransferred := st.SizeTransferred + n,
                          PartsTransferred := i + 1 }, attempts)
        | .parseErr => some (uploadDone st true, attempts)
        | .indexPanic => none
      else some (uploadDone st true, attempts)

/-- Outcome of the `uploadFile` loop: terminated with a final status (and
total number of transport attempts), panicked, or ran out of fuel. -/
inductive RunOutcome where
  | done (st : UploadStatus) (attempts : Nat)
  | panicked (attempts : Nat)
  | fuelOut (st : UploadStatus) (i : Nat) (attempts : Nat)
deriving Repr, DecidableEq

/-- The `uploadFile` loop (client.go:151-158), on fuel:

```go
i := uint64(0)
for !c.Status.IsDone { c.uploadChunk(i); i = i + 1 }
```
`acc` accumulates transport attempts across chunks. -/
def runFrom (env : Env) (chunkSize : Int) :
    Nat → Nat → UploadStatus → Nat → RunOutcome
  | 0, i, st, acc => if st.IsDone then .done st acc else .fuelOut st i acc
  | fuel + 1, i, st, acc =>
    if st.IsDone then .done st acc
    else
      match uploadChunk env chunkSize i st with
      | none => .panicked acc
      | some (st', a) => runFrom env chunkSize fuel (i + 1) st' (acc + a)

/-- The `Parts` computation of `Init` (client.go:125):
`uint64(math.Ceil(float64(Size) / float64(chunkSize)))`, i.e. the ceiling
of the exact quotient (exact below `2^53`), as a natural number.  Stated
over the nonnegative images of `Size` and `chunkSize`; the claims only
quantify over `Size ≥ 0` and `chunkSize > 0`, where this agrees with the
float computation. -/
def partsOf (size : Int) (chunkSize : Int) : Nat :=
  (size.toNat + chunkSize.toNat - 1) / chunkSize.toNat

/-- `uploadFile` run from the freshly prepared status; fuel
`Parts + 1` is enough because `i` strictly increases and the loop
terminates at `i = Parts` at the latest. -/
def uploadFile (env : Env) (chunkSize : Int) (st : UploadStatus) : RunOutcome :=
  runFrom env chunkSize (st.Parts + 1) 0 st 0

/-- Pre-loop collaborators of `Init` in the file-backed variant:
`os.Stat` (returning the size, or a non-nil error modelled as `none`) and
`os.Open` (success flag). -/
structure InitEnv where
  statResult : Option Int
  openOk : Bool

/-- Result of `Init` (client.go:104-129): either it returned a non-nil
error before the upload loop (with the status it left behind), or it
returned nil and the upload ran (`RunOutcome` records the run, including
a possible panic, in which case `Init` never returns). -/
inductive InitResult where
  | initErr (st : UploadStatus)
  | ran (outcome : RunOutcome)
deriving Repr, DecidableEq

/-- Whether `Init` returned a non-nil error. -/
def isInitErr : InitResult → Bool
  | .initErr _ => true
  | .ran _ => false

/-- Embedding of `Init` (client.go:104-129).  `hasFile` distinguishes the
file-backed uploader (`filePath != ""`) from the reader-backed one, whose
`Status.Size` was set to `sizeIfReader` by `NewUploaderFromReader`.  On a
stat/open failure, `checkError` (client.go:143-149) calls
`uploadDone(true)` and `Init` returns the error. -/
def InitModel (hasFile : Bool) (ie : InitEnv) (env : Env) (chunkSize : Int)
    (sizeIfReader : Int) : InitResult :=
  let st0 : UploadStatus :=
    { Size := if hasFile then 0 else sizeIfReader,
      SizeTransferred := 0, Parts := 0, PartsTransferred := 0,
      IsDone := false, TransferredException := false }
  if hasFile then
    match ie.statResult with
    | none => .initErr (uploadDone st0 true)
    | some sz =>
      let st1 := { st0 with Size := sz }
      if ie.openOk = false then .initErr (uploadDone st1 true)
      else
        let st2 := { st1 with Parts := partsOf st1.Size chunkSize }
        .ran (uploadFile env chunkSize st2)
  else
    let st2 := { st0 with Parts := partsOf st0.Size chunkSize }
    .ran (uploadFile env chunkSize st2)

/-- The headers `httpRequest` (client.go:260-274) adds to a chunk request,
in `Header.Add` order: the four fixed headers, then every caller-supplied
pair (Go map iteration order is unspecified, so the extra pairs are taken
as an arbitrary association list). -/
def requestHeaders (fileName : String) (contentRange : String)
    (sessionID : String) (additionalHeaders : List (String × String)) :
    List (String × String) :=
  [("Content-Type", "application/octet-stream"),
   ("Content-Disposition", "attachment; filename=\"" ++ fileName ++ "\""),
   ("Content-Range", contentRange),
   ("Session-ID", sessionID)] ++ additionalHeaders

/-! Concrete collaborator scenarios used by witnesses and counterexamples. -/

/-- Every read succeeds; every attempt succeeds with an empty body. -/
def envEmptyOk : Env := ⟨fun _ => true, fun _ _ => ⟨true, "", false⟩⟩

/-- Every attempt succeeds but the server reports the accepted range
`0-1000/250`, far beyond the requested part size. -/
def envBadBody : Env := ⟨fun _ => true, fun _ _ => ⟨true, "0-1000/250", false⟩⟩

/-- Every chunk fails its first two attempts and succeeds on the third. -/
def envFlaky : Env :=
  ⟨fun _ => true, fun _ j => if j < 2 then ⟨false, "", false⟩ else ⟨true, "", false⟩⟩

/-- Every attempt fails (transport error on every try). -/
def envAllFail : Env := ⟨fun _ => true, fun _ _ => ⟨false, "", true⟩⟩

/-! ## Theorems -/

/-- A natural number below the `uint64` modulus is fixed by the Go
`uint64` conversion. -/
theorem u64_coe_nat (n : Nat) (h : n < U64MOD) : u64 (n : Int) = n := by
  have h0 : (0 : Int) ≤ (n : Int) := Int.ofNat_nonneg n
  have h1 : (n : Int) < (U64MOD : Int) := by exact_mod_cast h
  simp [u64, Int.emod_eq_of_lt h0 h1]

/-- C9: for `index == 0` (and every `chunkSize > 0`, `totalSize > 0`) the
generated Content-Range string is `bytes 0-{partSize}/{total}`, with the
declared end equal to `partSize` itself; in particular
`index=0, chunkSize=100, totalSize=250` (so `partSize=100`) yields
`bytes 0-100/250`. -/
theorem c9_content_range_index_zero (chunkSize totalSize partSize : Int)
    (hc : 0 < chunkSize) (ht : 0 < totalSize) :
    generateContentRange 0 chunkSize partSize totalSize =
      "bytes 0-" ++ toString partSize ++ "/" ++ toString totalSize ∧
    generateContentRange 0 100 (computePartSize 100 250 0) 250 = "bytes 0-100/250" :=
  ⟨by simp [generateContentRange], by rfl⟩

/-- C9 witness: the theorem applied at `chunkSize=100, totalSize=250,
partSize=100`. -/
theorem c9_content_range_index_zero_witness :
    generateContentRange 0 100 100 250 =
      "bytes 0-" ++ toString (100 : Int) ++ "/" ++ toString (250 : Int) :=
  (c9_content_range_index_zero 100 250 100 (by norm_num) (by norm_num)).1

/-- C1 counterexample: at `index=1, chunkSize=100, totalSize=200` the code
emits `bytes 100-200/200`, but the claimed formula
`to = min(chunkSize*(index+1), totalSize-1) = min(200,199) = 199` demands
`bytes 100-199/200`.  (The code only clamps when
`chunkSize*(index+1) > totalSize`, so at equality the unclamped value
`totalSize` is emitted.) -/
theorem c1_counterexample :
    min (100 * (1 + 1)) (200 - 1) = 199 ∧
    generateContentRange 1 100 100 200 = "bytes 100-200/200" ∧
    generateContentRange 1 100 100 200 ≠ "bytes 100-199/200" :=
  ⟨by norm_num, by rfl, by decide⟩

/-- C1 (amended): for every `index ≥ 1`, `chunkSize > 0` and
`totalSize > 0` (values within machine range, so no `uint64` wrap), the
generated Content-Range string is `bytes {from}-{to}/{total}` with
`from = chunkSize * index` and `to = chunkSize*(index+1)` when that does
not exceed `totalSize`, and `to = totalSize - 1` otherwise.  This equals
`min(chunkSize*(index+1), totalSize - 1)` except when
`chunkSize*(index+1) = totalSize`, where the code emits `totalSize`. -/
theorem c1_content_range_index_pos (index cs ts : Nat) (ps : Int)
    (hi : 1 ≤ index) (hc : 0 < cs) (ht : 0 < ts)
    (hcap : cs * (index + 1) < U64MOD) (hts : ts < 2 ^ 63) :
    generateContentRange index (cs : Int) ps (ts : Int) =
      "bytes " ++ toString (cs * index) ++ "-" ++
        toString (if cs * (index + 1) > ts then ts - 1 else cs * (index + 1)) ++
        "/" ++ toString (ts : Int) := by
  have hM : U64MOD = 18446744073709551616 := by norm_num [U64MOD]
  have h63 : (2 : Nat) ^ 63 = 9223372036854775808 := by norm_num
  have hcs64 : cs < U64MOD := by
    have : cs * 1 ≤ cs * (index + 1) := Nat.mul_le_mul_left cs (by omega)
    omega
  have hts64 : ts < U64MOD := by omega
  have h1 : u64 (cs : Int) = cs := u64_coe_nat cs hcs64
  have h2 : u64 (ts : Int) = ts := u64_coe_nat ts hts64
  have hfromle : cs * index ≤ cs * (index + 1) := Nat.mul_le_mul_left cs (by omega)
  have hfrom : cs * index % U64MOD = cs * index := Nat.mod_eq_of_lt (by omega)
  have htoraw : cs * (index + 1) % U64MOD = cs * (index + 1) := Nat.mod_eq_of_lt hcap
  simp only [generateContentRange]
  rw [if_neg (by omega : ¬ index = 0), h1, h2, hfrom, htoraw]
  by_cases hgt : cs * (index + 1) > ts
  · rw [if_pos hgt, if_pos hgt]
    have e : (ts + (U64MOD - 1)) % U64MOD = ts - 1 := by
      have e1 : ts + (U64MOD - 1) = (ts - 1) + U64MOD := by omega
      rw [e1, Nat.add_mod_right, Nat.mod_eq_of_lt (by omega)]
    rw [e]
  · rw [if_neg hgt, if_neg hgt]

/-- C1 witness: the amended theorem applied at
`index=2, chunkSize=100, totalSize=250`, giving `bytes 200-249/250`. -/
theorem c1_content_range_index_pos_witness :
    generateContentRange 2 ((100 : Nat) : Int) 100 ((250 : Nat) : Int) =
      "bytes " ++ toString (100 * 2) ++ "-" ++
        toString (if 100 * (2 + 1) > 250 then 250 - 1 else 100 * (2 + 1)) ++
        "/" ++ toString ((250 : Nat) : Int) :=
  c1_content_range_index_pos 2 100 250 100 (by norm_num) (by norm_num)
    (by norm_num) (by norm_num [U64MOD]) (by norm_num)

/-- C4 (code bug): on the non-empty body `"5/250"`, which contains no
`"-"` separator, `parseBody` — and hence the transferred-size
reconciliation — hits `splitted[1]` out of range and panics instead of
returning a parse error, contradicting the claim that it is a total
function returning the parsed `to` field or a `ParseError`. -/
theorem c4_parse_body_panics :
    parseBody "5/250" = ParseResult.indexPanic ∧
    calculateTransferredSize "5/250" 100
      { Size := 250, SizeTransferred := 0, Parts := 3, PartsTransferred := 0,
        IsDone := false, TransferredException := false } = ParseResult.indexPanic ∧
    uploadChunk ⟨fun _ => true, fun _ _ => ⟨true, "5/250", false⟩⟩ 100 0
      { Size := 250, SizeTransferred := 0, Parts := 3, PartsTransferred := 0,
        IsDone := false, TransferredException := false } = none :=
  ⟨by rfl, by rfl, by rfl⟩

/-- C10: the transferred-size reconciliation takes the default delta
(`requestedPartSize` capped by what remains of `totalSize`) exactly when
the response body is the empty string; every non-empty body, whatever its
content, is handed to `parseBody` and never yields the default delta. -/
theorem c10_nonempty_body_always_parsed (body : String) (ps : Int)
    (st : UploadStatus) :
    (body ≠ "" → calculateTransferredSize body ps st = parseBody body) ∧
    (body = "" → calculateTransferredSize body ps st =
      .ok (if ps + st.SizeTransferred > st.Size then
             st.Size - st.SizeTransferred
           else ps)) := by
  constructor <;> intro h <;> simp [calculateTransferredSize, h]

/-- C10 witness: the theorem applied to the non-empty body `"0-7/250"`
and to the empty body. -/
theorem c10_nonempty_body_always_parsed_witness :
    calculateTransferredSize "0-7/250" 100
      { Size := 250, SizeTransferred := 0, Parts := 3, PartsTransferred := 0,
        IsDone := false, TransferredException := false } = parseBody "0-7/250" :=
  (c10_nonempty_body_always_parsed "0-7/250" 100 _).1 (by decide)

/-- C3: every chunk request built by the transport carries
`Content-Type: application/octet-stream`, a `Content-Disposition` naming
the file, the `Content-Range` value, the `Session-ID` correlation header,
and additionally every caller-supplied pair of the additional-headers
mapping — no caller header is dropped. -/
theorem c3_headers_complete (fn cr sid : String)
    (extra : List (String × String)) :
    ("Content-Type", "application/octet-stream") ∈ requestHeaders fn cr sid extra ∧
    ("Content-Disposition", "attachment; filename=\"" ++ fn ++ "\"")
      ∈ requestHeaders fn cr sid extra ∧
    ("Content-Range", cr) ∈ requestHeaders fn cr sid extra ∧
    ("Session-ID", sid) ∈ requestHeaders fn cr sid extra ∧
    ∀ kv ∈ extra, kv ∈ requestHeaders fn cr sid extra := by
  refine ⟨by simp [requestHeaders], by simp [requestHeaders],
    by simp [requestHeaders], by simp [requestHeaders], ?_⟩
  intro kv hkv
  simp [requestHeaders]
  tauto

/-- C3 witness: a concrete caller-supplied header survives into the
request's header list. -/
theorem c3_headers_complete_witness :
    ("X-Api-Key", "k") ∈ requestHeaders "f.bin" "bytes 0-100/250" "AABB"
      [("X-Api-Key", "k")] :=
  (c3_headers_complete "f.bin" "bytes 0-100/250" "AABB"
    [("X-Api-Key", "k")]).2.2.2.2 ("X-Api-Key", "k") (by simp)

/-- C5: for all `totalSize ≥ 0` and `chunkSize > 0` the engine's part
count is the ceiling of `totalSize / chunkSize` (characterized as the
least `m` with `totalSize ≤ m * chunkSize`), and a zero `totalSize`
yields `totalParts = 0` and immediate success — terminal status
`isDone = true`, `failed = false` — with zero transport attempts, i.e.
no chunk request is sent. -/
theorem c5_total_parts_ceil (ts cs : Int) (hts : 0 ≤ ts) (hcs : 0 < cs) :
    (ts ≤ (partsOf ts cs : Int) * cs ∧
     ∀ m : Nat, ts ≤ (m : Int) * cs → partsOf ts cs ≤ m) ∧
    (ts = 0 →
      partsOf ts cs = 0 ∧
      ∀ env : Env, InitModel false ⟨none, true⟩ env cs ts =
        .ran (.done { Size := 0, SizeTransferred := 0, Parts := 0,
                      PartsTransferred := 0, IsDone := true,
                      TransferredException := false } 0)) := by
  have hcast1 : ((ts.toNat : Int)) = ts := Int.toNat_of_nonneg hts
  have hcast2 : ((cs.toNat : Int)) = cs := Int.toNat_of_nonneg (le_of_lt hcs)
  have hcn : 0 < cs.toNat := by omega
  constructor
  · constructor
    · have hnat : ts.toNat ≤ partsOf ts cs * cs.toNat := by
        have h1 : cs.toNat * ((ts.toNat + cs.toNat - 1) / cs.toNat) +
            (ts.toNat + cs.toNat - 1) % cs.toNat = ts.toNat + cs.toNat - 1 :=
          Nat.div_add_mod _ _
        have h2 : (ts.toNat + cs.toNat - 1) % cs.toNat < cs.toNat :=
          Nat.mod_lt _ hcn
        have h3 : partsOf ts cs * cs.toNat =
            cs.toNat * ((ts.toNat + cs.toNat - 1) / cs.toNat) := by
          simp [partsOf, Nat.mul_comm]
        rw [h3]
        omega
      calc ts = ((ts.toNat : Int)) := hcast1.symm
        _ ≤ ((partsOf ts cs * cs.toNat : Nat) : Int) := by exact_mod_cast hnat
        _ = (partsOf ts cs : Int) * cs := by push_cast [hcast2]; ring
    · intro m hm
      have hmn : ts.toNat ≤ m * cs.toNat := by
        rw [← hcast1, ← hcast2] at hm
        exact_mod_cast hm
      have hlt : ts.toNat + cs.toNat - 1 < (m + 1) * cs.toNat := by
        have e : (m + 1) * cs.toNat = m * cs.toNat + cs.toNat := by ring
        omega
      have : (ts.toNat + cs.toNat - 1) / cs.toNat < m + 1 :=
        (Nat.div_lt_iff_lt_mul hcn).mpr hlt
      have hle : (ts.toNat + cs.toNat - 1) / cs.toNat ≤ m := Nat.lt_succ_iff.mp this
      simpa [partsOf] using hle
  · intro h0
    subst h0
    have hParts : partsOf 0 cs = 0 := by
      have : (0 : Int).toNat + cs.toNat - 1 < cs.toNat := by omega
      simp only [partsOf]
      exact Nat.div_eq_of_lt this
    refine ⟨hParts, ?_⟩
    intro env
    simp [InitModel, uploadFile, hParts, runFrom, uploadChunk, uploadDone]

/-- C5 witness: the theorem applied at `totalSize = 250`,
`chunkSize = 100` — the computed part count `⌈250/100⌉ = 3` covers the
whole payload. -/
theorem c5_total_parts_ceil_witness :
    (250 : Int) ≤ (partsOf 250 100 : Int) * 100 :=
  (c5_total_parts_ceil 250 100 (by norm_num) (by norm_num)).1.1

/-- The retry loop never changes the response body away from `""` when
every attempt of the chunk reports an empty body. -/
theorem retryGo_body_empty (att : Nat → AttemptResult)
    (h : ∀ j, (att j).body = "") :
    ∀ fuel n s b e, b = "" → (retryGo att fuel n s b e).2.1 = "" := by
  intro fuel
  induction fuel with
  | zero =>
    intro n s b e hb
    simpa [retryGo] using hb
  | succ fuel ih =>
    intro n s b e hb
    simp only [retryGo]
    split
    · exact ih (n + 1) _ _ _ (h n)
    · simpa using hb

/-- Single-step preservation of the transferred-size bounds when the
chunk's attempts all carry empty bodies (default-delta reconciliation):
`0 ≤ transferredSize ≤ totalSize` is preserved, and `Size` and `Parts`
never change. -/
theorem uploadChunk_inv (env : Env) (c : Int) (i : Nat)
    (st st' : UploadStatus) (a : Nat)
    (hbody : ∀ j, (env.attempt i j).body = "")
    (h0 : 0 ≤ st.SizeTransferred) (h1 : st.SizeTransferred ≤ st.Size)
    (h : uploadChunk env c i st = some (st', a)) :
    0 ≤ st'.SizeTransferred ∧ st'.SizeTransferred ≤ st'.Size ∧
      st'.Size = st.Size := by
  have hb : (retry (env.attempt i)).2.1 = "" :=
    retryGo_body_empty _ hbody 4 0 false "" 0 rfl
  simp only [uploadChunk] at h
  split at h
  · cases h
    exact ⟨h0, h1, rfl⟩
  · split at h
    · cases h
      exact ⟨h0, h1, rfl⟩
    · split at h
      · cases h
        exact ⟨h0, h1, rfl⟩
      · split at h
        · cases h
          exact ⟨h0, h1, rfl⟩
        · rw [hb] at h
          split at h
          · rename_i hps _
            simp only [calculateTransferredSize] at h
            rw [if_neg (by simp)] at h
            split at h <;> cases h <;> constructor <;> simp_all <;> omega
          · cases h
            exact ⟨h0, h1, rfl⟩

/-- Whole-run preservation of the transferred-size bounds under
empty-body (default-delta) reconciliation. -/
theorem runFrom_inv (env : Env) (c : Int)
    (hbody : ∀ i j, (env.attempt i j).body = "") :
    ∀ fuel i st acc st' a,
      0 ≤ st.SizeTransferred → st.SizeTransferred ≤ st.Size →
      runFrom env c fuel i st acc = .done st' a →
      0 ≤ st'.SizeTransferred ∧ st'.SizeTransferred ≤ st'.Size := by
  intro fuel
  induction fuel with
  | zero =>
    intro i st acc st' a h0 h1 h
    simp only [runFrom] at h
    split at h
    · cases h; exact ⟨h0, h1⟩
    · cases h
  | succ fuel ih =>
    intro i st acc st' a h0 h1 h
    simp only [runFrom] at h
    split at h
    · cases h; exact ⟨h0, h1⟩
    · split at h
      · cases h
      · rename_i stm am heq
        obtain ⟨g0, g1, -⟩ := uploadChunk_inv env c i st stm am (hbody i) h0 h1 heq
        exact ih (i + 1) stm _ st' a g0 g1 h

/-- C2 (amended): when every successful chunk's response body is empty —
i.e. every transferred-size delta comes from the default
`requestedPartSize` path — the invariant
`0 ≤ transferredSize ≤ totalSize` is preserved by every chunk step and
holds in every terminal state of the run.  (As stated the claim is false:
a server-reported range body is added without capping, see the
counterexample.) -/
theorem c2_transferred_size_invariant_empty_bodies :
    (∀ (env : Env) (c : Int) (i : Nat) (st st' : UploadStatus) (a : Nat),
      (∀ j, (env.attempt i j).body = "") →
      0 ≤ st.SizeTransferred → st.SizeTransferred ≤ st.Size →
      uploadChunk env c i st = some (st', a) →
      0 ≤ st'.SizeTransferred ∧ st'.SizeTransferred ≤ st'.Size) ∧
    (∀ (env : Env) (c : Int) (fuel i : Nat) (st : UploadStatus) (acc : Nat)
      (st' : UploadStatus) (a : Nat),
      (∀ i' j, (env.attempt i' j).body = "") →
      0 ≤ st.SizeTransferred → st.SizeTransferred ≤ st.Size →
      runFrom env c fuel i st acc = .done st' a →
      0 ≤ st'.SizeTransferred ∧ st'.SizeTransferred ≤ st'.Size) :=
  ⟨fun env c i st st' a hb h0 h1 h =>
    (uploadChunk_inv env c i st st' a hb h0 h1 h).imp id And.left,
   fun env c fuel i st acc st' a hb h0 h1 h =>
    runFrom_inv env c hb fuel i st acc st' a h0 h1 h⟩

/-- C2 witness: the run-level invariant applied to a concrete 250-byte
upload in 100-byte chunks with empty response bodies; the final status
satisfies the bounds. -/
theorem c2_transferred_size_invariant_empty_bodies_witness :
    0 ≤ (UploadStatus.mk 250 250 3 3 true false).SizeTransferred ∧
    (UploadStatus.mk 250 250 3 3 true false).SizeTransferred ≤
      (UploadStatus.mk 250 250 3 3 true false).Size :=
  c2_transferred_size_invariant_empty_bodies.2 envEmptyOk 100 4 0
    (UploadStatus.mk 250 0 3 0 false false) 0
    (UploadStatus.mk 250 250 3 3 true false) 3
    (fun _ _ => rfl) (by norm_num) (by norm_num) (by rfl)

/-- C2 counterexample: with a server-reported range body `0-1000/250`
every chunk reconciliation adds 1000, so after the first chunk — and in
the terminal state of the full upload — `transferredSize` (1000, then
3000) exceeds `totalSize = 250`, refuting the claimed invariant. -/
theorem c2_counterexample :
    uploadChunk envBadBody 100 0
      { Size := 250, SizeTransferred := 0, Parts := 3, PartsTransferred := 0,
        IsDone := false, TransferredException := false } =
      some ({ Size := 250, SizeTransferred := 1000, Parts := 3,
              PartsTransferred := 1, IsDone := false,
              TransferredException := false }, 1) ∧
    InitModel true ⟨some 250, true⟩ envBadBody 100 0 =
      .ran (.done { Size := 250, SizeTransferred := 3000, Parts := 3,
                    PartsTransferred := 3, IsDone := true,
                    TransferredException := false } 3) ∧
    ¬ ((3000 : Int) ≤ 250) :=
  ⟨by rfl, by rfl, by norm_num⟩

/-- The retry loop makes at most 3 transport attempts. -/
theorem retry_attempts_le_three (att : Nat → AttemptResult) :
    (retry att).2.2 ≤ 3 := by
  cases h0 : attemptOk (att 0) <;> cases h1 : attemptOk (att 1) <;>
    cases h2 : attemptOk (att 2) <;> simp [retry, retryGo, h0, h1, h2]

/-- A first-attempt success stops the loop after one attempt. -/
theorem retry_first_success (att : Nat → AttemptResult)
    (h0 : attemptOk (att 0) = true) :
    retry att = (true, (att 0).body, 1) := by
  simp [retry, retryGo, h0]

/-- A failure then a success stops the loop after two attempts. -/
theorem retry_second_success (att : Nat → AttemptResult)
    (h0 : attemptOk (att 0) = false) (h1 : attemptOk (att 1) = true) :
    retry att = (true, (att 1).body, 2) := by
  simp [retry, retryGo, h0, h1]

/-- Two failures then a success stops the loop after three attempts,
reporting success. -/
theorem retry_third_success (att : Nat → AttemptResult)
    (h0 : attemptOk (att 0) = false) (h1 : attemptOk (att 1) = false)
    (h2 : attemptOk (att 2) = true) :
    retry att = (true, (att 2).body, 3) := by
  simp [retry, retryGo, h0, h1, h2]

/-- Three failures exhaust the retry budget and report failure. -/
theorem retry_all_fail (att : Nat → AttemptResult)
    (h0 : attemptOk (att 0) = false) (h1 : attemptOk (att 1) = false)
    (h2 : attemptOk (att 2) = false) :
    retry att = (false, (att 2).body, 3) := by
  simp [retry, retryGo, h0, h1, h2]

/-- C6: per chunk, the send is attempted at most 3 times; an attempt
counts as failed iff it returns `success=false` or a non-nil error;
retrying stops at the first successful attempt (after 1, 2 or 3 attempts
respectively); if the first two attempts fail and the third succeeds the
chunk is recorded as transferred (`transferredParts = i+1`) and the
engine proceeds (not terminal); if all 3 attempts fail the chunk step
ends in `isDone=true, failed=true` with `transferredParts` unchanged
(frozen at the last successful index). -/
theorem c6_retry_policy :
    (∀ a : AttemptResult,
      attemptOk a = false ↔ (a.success = false ∨ a.err = true)) ∧
    (∀ att : Nat → AttemptResult, (retry att).2.2 ≤ 3) ∧
    (∀ att : Nat → AttemptResult, attemptOk (att 0) = true →
      retry att = (true, (att 0).body, 1)) ∧
    (∀ att : Nat → AttemptResult, attemptOk (att 0) = false →
      attemptOk (att 1) = true → retry att = (true, (att 1).body, 2)) ∧
    (∀ att : Nat → AttemptResult, attemptOk (att 0) = false →
      attemptOk (att 1) = false → attemptOk (att 2) = true →
      retry att = (true, (att 2).body, 3)) ∧
    (∀ att : Nat → AttemptResult, attemptOk (att 0) = false →
      attemptOk (att 1) = false → attemptOk (att 2) = false →
      retry att = (false, (att 2).body, 3)) ∧
    (∀ (env : Env) (c : Int) (i : Nat) (st : UploadStatus),
      st.IsDone = false → ¬ i = st.Parts → st.TransferredException = false →
      0 < computePartSize c st.Size i → env.readOk i = true →
      attemptOk (env.attempt i 0) = false →
      attemptOk (env.attempt i 1) = false →
      attemptOk (env.attempt i 2) = true → (env.attempt i 2).body = "" →
      ∃ st', uploadChunk env c i st = some (st', 3) ∧
        st'.PartsTransferred = i + 1 ∧ st'.IsDone = false ∧
        st'.TransferredException = false) ∧
    (∀ (env : Env) (c : Int) (i : Nat) (st : UploadStatus),
      ¬ i = st.Parts → st.TransferredException = false →
      0 < computePartSize c st.Size i → env.readOk i = true →
      attemptOk (env.attempt i 0) = false →
      attemptOk (env.attempt i 1) = false →
      attemptOk (env.attempt i 2) = false →
      uploadChunk env c i st = some (uploadDone st true, 3) ∧
        (uploadDone st true).PartsTransferred = st.PartsTransferred ∧
        (uploadDone st true).IsDone = true ∧
        (uploadDone st true).TransferredException = true) := by
  refine ⟨?_, retry_attempts_le_three, retry_first_success,
    retry_second_success, retry_third_success, retry_all_fail, ?_, ?_⟩
  · intro a
    obtain ⟨s, b, e⟩ := a
    cases s <;> cases e <;> simp [attemptOk]
  · intro env c i st hdone hi hex hps hread h0 h1 h2 hb
    have hr : retry (env.attempt i) = (true, (env.attempt i 2).body, 3) :=
      retry_third_success _ h0 h1 h2
    refine ⟨{ st with
        SizeTransferred := st.SizeTransferred +
          (if computePartSize c st.Size i + st.SizeTransferred > st.Size then
            st.Size - st.SizeTransferred
          else computePartSize c st.Size i),
        PartsTransferred := i + 1 }, ?_, by simp, by simp [hdone], by simp [hex]⟩
    simp only [uploadChunk, hr, hb]
    rw [if_neg hi, if_neg (by simp [hex]), if_neg (by omega), if_neg (by simp [hread])]
    simp [calculateTransferredSize]
  · intro env c i st hi hex hps hread h0 h1 h2
    have hr : retry (env.attempt i) = (false, (env.attempt i 2).body, 3) :=
      retry_all_fail _ h0 h1 h2
    refine ⟨?_, rfl, rfl, rfl⟩
    simp only [uploadChunk, hr]
    rw [if_neg hi, if_neg (by simp [hex]), if_neg (by omega), if_neg (by simp [hread])]
    simp

/-- C6 witness: against the flaky transport that fails twice and succeeds
on the third attempt, chunk 0 of a 250-byte upload is recorded as
transferred after exactly 3 attempts. -/
theorem c6_retry_policy_witness :
    ∃ st', uploadChunk envFlaky 100 0
        (UploadStatus.mk 250 0 3 0 false false) = some (st', 3) ∧
      st'.PartsTransferred = 0 + 1 ∧ st'.IsDone = false ∧
      st'.TransferredException = false :=
  c6_retry_policy.2.2.2.2.2.2.1 envFlaky 100 0
    (UploadStatus.mk 250 0 3 0 false false)
    rfl (by decide) rfl (by norm_num [computePartSize]) rfl rfl rfl rfl rfl

/-- C7: once `isDone` is true the loop performs no further chunk
processing and the status — all of `totalParts`, `transferredParts`,
`transferredSize`, `failed` — is returned unchanged, so repeated reads
after `isDone=true` see identical values; conversely every terminal
outcome of the loop has `isDone = true`. -/
theorem c7_done_frozen :
    (∀ (env : Env) (c : Int) (fuel i : Nat) (st : UploadStatus) (acc : Nat),
      st.IsDone = true → runFrom env c fuel i st acc = .done st acc) ∧
    (∀ (env : Env) (c : Int) (fuel i : Nat) (st : UploadStatus) (acc : Nat)
      (st' : UploadStatus) (a : Nat),
      runFrom env c fuel i st acc = .done st' a → st'.IsDone = true) := by
  constructor
  · intro env c fuel i st acc h
    cases fuel <;> simp [runFrom, h]
  · intro env c fuel
    induction fuel with
    | zero =>
      intro i st acc st' a h
      simp only [runFrom] at h
      split at h
      · cases h; assumption
      · cases h
    | succ fuel ih =>
      intro i st acc st' a h
      simp only [runFrom] at h
      split at h
      · cases h; assumption
      · split at h
        · cases h
        · exact ih _ _ _ _ _ h

/-- C7 witness: from an already-done status the loop returns it
unchanged. -/
theorem c7_done_frozen_witness :
    runFrom envEmptyOk 100 5 0 (UploadStatus.mk 250 250 3 3 true false) 3 =
      .done (UploadStatus.mk 250 250 3 3 true false) 3 :=
  c7_done_frozen.1 envEmptyOk 100 5 0 (UploadStatus.mk 250 250 3 3 true false) 3 rfl

/-- C8: `Init()` returns a non-nil error exactly when a pre-loop
initialization step fails (stat or open of the source file, possible
only in the file-backed variant); whenever initialization succeeds,
`Init()` runs the whole upload synchronously and returns nil, so every
steady-state chunk failure is reflected only in the status flags of the
run outcome. -/
theorem c8_init_error_only_init_failures :
    ∀ (hasFile : Bool) (ie : InitEnv) (env : Env) (cs sz : Int),
      (isInitErr (InitModel hasFile ie env cs sz) = true ↔
        hasFile = true ∧ (ie.statResult = none ∨ ie.openOk = false)) ∧
      (∀ sz', ie.statResult = some sz' → ie.openOk = true →
        InitModel true ie env cs sz =
          .ran (uploadFile env cs
            { Size := sz', SizeTransferred := 0, Parts := partsOf sz' cs,
              PartsTransferred := 0, IsDone := false,
              TransferredException := false })) ∧
      (InitModel false ie env cs sz =
        .ran (uploadFile env cs
          { Size := sz, SizeTransferred := 0, Parts := partsOf sz cs,
            PartsTransferred := 0, IsDone := false,
            TransferredException := false })) := by
  intro hasFile ie env cs sz
  obtain ⟨sr, op⟩ := ie
  refine ⟨?_, ?_, ?_⟩
  · cases hasFile <;> cases sr <;> cases op <;> simp [InitModel, isInitErr]
  · intro sz' h1 h2
    simp only at h1 h2
    subst h1
    subst h2
    simp [InitModel]
  · simp [InitModel]

/-- C8 witness: a stat failure makes `Init` return a non-nil error, and
with stat and open succeeding `Init` returns nil and runs the upload. -/
theorem c8_init_error_only_init_failures_witness :
    isInitErr (InitModel true ⟨none, true⟩ envEmptyOk 100 0) = true ∧
    InitModel true ⟨some 250, true⟩ envEmptyOk 100 0 =
      .ran (uploadFile envEmptyOk 100
        { Size := 250, SizeTransferred := 0, Parts := partsOf 250 100,
          PartsTransferred := 0, IsDone := false,
          TransferredException := false }) :=
  ⟨((c8_init_error_only_init_failures true ⟨none, true⟩ envEmptyOk 100 0).1).mpr
      ⟨rfl, Or.inl rfl⟩,
   (c8_init_error_only_init_failures true ⟨some 250, true⟩ envEmptyOk 100 0).2.1
      250 rfl rfl⟩

end Uploadbig
